import Mathlib

/-!
Shallow embedding of the autogen cheminformatics pipeline
(`agent_functions.py` and `cheminformatics_chat.py`).

Pandas cells are modelled as `Option String` (`none` is NaN), a DataFrame
as a column-name list plus a row list, and the external ChEMBL / RDKit /
mordred services as explicit parameters.  File writes are returned
explicitly as (name, contents) components of each function's output.
-/

namespace Chemi

/-- A pandas cell: `none` models NaN / missing. -/
abbrev Cell := Option String

/-- A pandas DataFrame with cells of type `α`. -/
structure DataFrame (α : Type) where
  columns : List String
  rows : List (List α)
deriving Repr, DecidableEq

/-- The argument of `summarize_df`: a DataFrame, a Series, or any other
Python object. -/
inductive PandasObj (α : Type) where
  | dataframe (df : DataFrame α)
  | series (index : List String) (values : List α)
  | other
deriving Repr, DecidableEq

/-- A value stored in the summary dictionary returned by `summarize_df`. -/
inductive SummaryVal (α : Type) where
  | strs (l : List String)
  | nat (n : Nat)
  | vals (l : List α)
  | str (s : String)
deriving Repr, DecidableEq

/-- A Python dict with string keys, as an association list. -/
abbrev PyDict (α : Type) := List (String × SummaryVal α)

/-- Python truthiness of an optional string: `None` and `""` are falsy. -/
def pyTruthy : Option String → Bool
  | none => false
  | some s => s ≠ ""

/-- `summarize_df(obj, file_name=None)` from agent_functions.py.
Builds `result_dict` from a DataFrame (`columns`, `num_rows`) or a Series
(`index`, `values`); any other object leaves `result_dict` unassigned, so
the final `return result_dict` raises UnboundLocalError, modelled as
`none`.  When `file_name` is truthy, a `csv_output` entry is added. -/
def summarize_df {α : Type} (obj : PandasObj α) (file_name : Option String) :
    Option (PyDict α) :=
  let base : Option (PyDict α) :=
    match obj with
    | .dataframe df => some [("columns", .strs df.columns), ("num_rows", .nat df.rows.length)]
    | .series index values => some [("index", .strs index), ("values", .vals values)]
    | .other => none
  match base, file_name with
  | some d, some fn => if fn ≠ "" then some (d ++ [("csv_output", .str fn)]) else some d
  | some d, none => some d
  | none, _ => none

/-- `target_query_results_file(target_name)` from agent_functions.py. -/
def target_query_results_file (target_name : String) : String :=
  "target_query_results_" ++ target_name ++ ".csv"

/-- Output of `download_protein_results`: the CSV write (name and
contents) and the returned summary. -/
structure DownloadOut (α : Type) where
  fileName : String
  written : DataFrame α
  summary : Option (PyDict α)
deriving Repr, DecidableEq

/-- `download_protein_results(target_query_string)` from
agent_functions.py.  The external ChEMBL search result (already as a
DataFrame, `pd.DataFrame(target_result)`) is passed explicitly.  The
function writes the DataFrame to `target_query_results_{query}.csv` and
returns `summarize_df(df)` with no file name. -/
def download_protein_results {α : Type} (target_query_string : String)
    (target_result : DataFrame α) : DownloadOut α :=
  let df := target_result
  let file_name := target_query_results_file target_query_string
  ⟨file_name, df, summarize_df (.dataframe df) none⟩

/-- A row of a saved target-query CSV: the `target_chembl_id` cell plus
the remaining cells of the row. -/
structure TargetRow where
  target_chembl_id : Cell
  rest : List Cell
deriving Repr, DecidableEq

/-- The target-query CSV loaded by `pd.read_csv` in
`select_target_from_query_results`: its column names and its rows. -/
structure TargetDF where
  columns : List String
  trows : List TargetRow
deriving Repr, DecidableEq

/-- Forget the `target_chembl_id` structure, recovering a plain DataFrame
(used to feed `summarize_df`). -/
def TargetDF.toDF (df : TargetDF) : DataFrame Cell :=
  ⟨df.columns, df.trows.map (fun r => r.target_chembl_id :: r.rest)⟩

/-- Output of `select_target_from_query_results` on success: the selected
rows and the returned summary. -/
structure SelectOut where
  selected : List TargetRow
  summary : Option (PyDict Cell)
deriving Repr, DecidableEq

/-- `select_target_from_query_results(chembl_id, target_query_string)`
from agent_functions.py.  The CSV loaded from
`target_query_results_{target_query_string}.csv` is passed explicitly as
`protein_result_df`.  If no cell of the `target_chembl_id` column equals
`chembl_id` the function raises ValueError; otherwise it returns
`summarize_df` of the rows whose `target_chembl_id` equals `chembl_id`.
(`.eq(chembl_id)` on a NaN cell is False, as in pandas.) -/
def select_target_from_query_results (chembl_id : String)
    (protein_result_df : TargetDF) : Except String SelectOut :=
  if ¬ (protein_result_df.trows.any (fun r => r.target_chembl_id == some chembl_id)) then
    .error ("Error: " ++ chembl_id ++ " not found in the protein results dataframe")
  else
    let matched := protein_result_df.trows.filter
      (fun r => r.target_chembl_id == some chembl_id)
    .ok ⟨matched, summarize_df (.dataframe (TargetDF.toDF ⟨protein_result_df.columns, matched⟩)) none⟩

/-- An activity record returned by the ChEMBL activity endpoint, modelled
with the three fields the code inspects (`target_chembl_id`,
`standard_type`, `canonical_smiles`); the remaining payload is `rest`. -/
structure ActivityRecord where
  target_chembl_id : String
  standard_type : Cell
  canonical_smiles : Cell
  rest : List Cell
deriving Repr, DecidableEq

/-- The two ValueErrors raised by `generate_activity_data`. -/
inductive ActivityError where
  | noActivityData (chembl_id : String)
  | wrongStandardType (standard_type : String)
deriving Repr, DecidableEq

/-- The exact ValueError message text raised by `generate_activity_data`. -/
def ActivityError.message : ActivityError → String
  | .noActivityData chembl_id =>
      "No activity data found for " ++ chembl_id ++ ". Please try another target."
  | .wrongStandardType standard_type =>
      "Activity data was found for this target, but not with the standard type '"
        ++ standard_type ++ "'. Please try another standard type."

/-- Output of `generate_activity_data` on success: the rows persisted to
the CSV, the printed dropped-row count, the output file name and the
returned summary. -/
structure GenActivityOut where
  written : List ActivityRecord
  droppedReported : Nat
  fileName : String
  summary : Option (PyDict Cell)
deriving Repr, DecidableEq

/-- Column names of the modelled activity DataFrame (the fields of
`ActivityRecord` that the code inspects). -/
def activityColumns : List String :=
  ["target_chembl_id", "standard_type", "canonical_smiles"]

/-- View a list of activity records as a DataFrame over the modelled
columns (to feed `summarize_df`). -/
def activityToDF (l : List ActivityRecord) : DataFrame Cell :=
  ⟨activityColumns, l.map (fun r => some r.target_chembl_id :: r.standard_type :: r.canonical_smiles :: r.rest)⟩

/-- `generate_activity_data(chembl_id, standard_type='IC50')` from
agent_functions.py.  The external ChEMBL activity table is passed
explicitly as `activity_db`; `.filter(target_chembl_id=...)` and
`.filter(standard_type=...)` become list filters.  Raises the
"no activity data" ValueError when the target filter is empty, the
"wrong standard type" ValueError when the subsequent type filter is
empty; otherwise drops rows with NaN `canonical_smiles`, reports the
dropped count, and persists the rest to
`activity_data_{chembl_id}_{standard_type}.csv`. -/
def generate_activity_data (activity_db : List ActivityRecord)
    (chembl_id : String) (standard_type : String) :
    Except ActivityError GenActivityOut :=
  let activity_result := activity_db.filter (fun r => r.target_chembl_id == chembl_id)
  if activity_result.isEmpty then
    .error (.noActivityData chembl_id)
  else
    let activity_result2 := activity_result.filter
      (fun r => r.standard_type == some standard_type)
    if activity_result2.isEmpty then
      .error (.wrongStandardType standard_type)
    else
      let num_rows := activity_result2.length
      let df := activity_result2.filter (fun r => r.canonical_smiles.isSome)
      let num_rows_dropped := num_rows - df.length
      let file_name := "activity_data_" ++ chembl_id ++ "_" ++ standard_type ++ ".csv"
      .ok ⟨df, num_rows_dropped, file_name,
        summarize_df (.dataframe (activityToDF df)) (some file_name)⟩

/-- Python's `str.split(sep)` for a single-character separator, on the
character list: splits at every occurrence of `sep`, keeping empty
fields, and always returns at least one field. -/
def splitChar (sep : Char) : List Char → List (List Char)
  | [] => [[]]
  | c :: cs =>
    if c = sep then
      [] :: splitChar sep cs
    else
      match splitChar sep cs with
      | [] => [[c]]
      | h :: t => (c :: h) :: t

/-- Python's `s.split(sep)` for a single-character separator, on strings. -/
def pySplit (sep : Char) (s : String) : List String :=
  (splitChar sep s.data).map String.mk

/-- The positional filename parsing done in `calculate_lipinski_descriptors`:
`activity_file.split('_')[2]` and `activity_file.split('_')[3].split('.')[0]`.
A Python IndexError (fewer than four underscore fields) is modelled as
`none`. -/
def lipinski_parts (activity_file : String) : Option (String × String) :=
  match (pySplit '_' activity_file).get? 2, (pySplit '_' activity_file).get? 3 with
  | some target_id, some field3 =>
    match (pySplit '.' field3).get? 0 with
    | some activity_type => some (target_id, activity_type)
    | none => none
  | _, _ => none

/-- The external chemistry libraries (RDKit), modelled abstractly: a
molecule type `Mol`, a parser that returns `none` where
`Chem.MolFromSmiles` returns Python `None`, and the five descriptor
functions with values in `Val`. -/
structure ChemLib (Mol Val : Type) where
  molFromSmiles : String → Option Mol
  molWt : Mol → Val
  numHDonors : Mol → Val
  numHAcceptors : Mol → Val
  numRotatableBonds : Mol → Val
  molLogP : Mol → Val

/-- The five-descriptor row computed for a single parsed molecule, in the
order the code appends them. -/
def lipinskiRow {Mol Val : Type} (lib : ChemLib Mol Val) (mol : Mol) : List Val :=
  [lib.molWt mol, lib.numHDonors mol, lib.numHAcceptors mol,
   lib.numRotatableBonds mol, lib.molLogP mol]

/-- The column names of the Lipinski descriptor DataFrame. -/
def lipinskiColumns : List String :=
  ["Molecular Weight", "H-Bond Donors", "H-Bond Acceptors", "Rotatable Bonds", "LogP"]

/-- Output of `calculate_lipinski_descriptors` on success: the descriptor
DataFrame persisted to the CSV, its file name, and the returned summary. -/
structure LipinskiOut (Val : Type) where
  written : DataFrame Val
  fileName : String
  summary : Option (PyDict Val)
deriving DecidableEq

/-- The `for smiles in smiles_series` loop of
`calculate_lipinski_descriptors`: one five-descriptor row per cell.  A
NaN cell or an unparsable SMILES (where `Chem.MolFromSmiles` returns
`None` and the following descriptor call raises) aborts the loop,
modelled as `none`. -/
def lipinskiRows {Mol Val : Type} (lib : ChemLib Mol Val) :
    List Cell → Option (List (List Val))
  | [] => some []
  | cell :: rest => do
    let smiles ← cell
    let mol ← lib.molFromSmiles smiles
    let rs ← lipinskiRows lib rest
    pure (lipinskiRow lib mol :: rs)

/-- `calculate_lipinski_descriptors(activity_file)` from
agent_functions.py.  The `canonical_smiles` column of the activity CSV
named by `activity_file` is passed explicitly as `smiles_series` (a NaN
cell is `none`; RDKit crashes on it, and a SMILES string RDKit cannot
parse makes `Chem.MolFromSmiles` return `None`, so the following
descriptor call crashes — both modelled as overall `none`).  On success
the five descriptors are computed per row and written to
`{target_id}_{activity_type}_lipinski.csv`, the two name parts being cut
out of `activity_file` positionally. -/
def calculate_lipinski_descriptors {Mol Val : Type} (lib : ChemLib Mol Val)
    (activity_file : String) (smiles_series : List Cell) :
    Option (LipinskiOut Val) := do
  let lipinski_descriptors ← lipinskiRows lib smiles_series
  let lipinski_df : DataFrame Val := ⟨lipinskiColumns, lipinski_descriptors⟩
  let (target_id, activity_type) ← lipinski_parts activity_file
  let file_name := target_id ++ "_" ++ activity_type ++ "_lipinski.csv"
  pure ⟨lipinski_df, file_name, summarize_df (.dataframe lipinski_df) (some file_name)⟩

/-- Output of `calculate_mordred_descriptors`: the descriptor DataFrame
persisted to the CSV, its file name, and the returned summary. -/
structure MordredOut (Val : Type) where
  written : DataFrame Val
  fileName : String
  summary : Option (PyDict Val)
deriving DecidableEq

/-- `calculate_mordred_descriptors(smiles)` from agent_functions.py.  The
mordred `Calculator(...).pandas` call is modelled as an explicit function
`calcPandas` from the list of parsed molecules (possibly `None`) to a
DataFrame.  Writes `mordred_descriptors.csv` and returns
`summarize_df(mordred_descriptors)` with no file name. -/
def calculate_mordred_descriptors {Mol Val : Type}
    (molFromSmiles : String → Option Mol)
    (calcPandas : List (Option Mol) → DataFrame Val)
    (smiles : List String) : MordredOut Val :=
  let mordred_descriptors := calcPandas (smiles.map molFromSmiles)
  ⟨mordred_descriptors, "mordred_descriptors.csv",
    summarize_df (.dataframe mordred_descriptors) none⟩

/-! ## cheminformatics_chat.py -/

/-- `terminate_group_chat(message)` from cheminformatics_chat.py. -/
def terminate_group_chat (message : String) : String :=
  "[GROUPCHAT_TERMINATE] " ++ message

/-- Boolean list-restriction test used to model Python's `str.startswith`
on character lists. -/
def listPre : List Char → List Char → Bool
  | [], _ => true
  | _ :: _, [] => false
  | a :: as, b :: bs => a == b && listPre as bs

/-- Python's substring test `needle in hay` on character lists. -/
def containsSub (hay needle : List Char) : Bool :=
  match hay with
  | [] => needle.isEmpty
  | _ :: t => listPre needle hay || containsSub t needle

/-- The manager's `is_termination_msg` from cheminformatics_chat.py:
`"GROUPCHAT_TERMINATE" in x.get("content", "")`. -/
def manager_is_termination_msg (content : String) : Bool :=
  containsSub content.data "GROUPCHAT_TERMINATE".data

/-- Python's `str.rstrip()`: drop trailing whitespace. -/
def pyRstrip (s : String) : String :=
  String.mk (s.data.reverse.dropWhile Char.isWhitespace).reverse

/-- Python's `a.endswith(b)` on strings. -/
def pyEndsWith (s suffix : String) : Bool :=
  listPre suffix.data.reverse s.data.reverse

/-- The `is_termination_msg` lambda shared by the two user-proxy agents in
cheminformatics_chat.py:
`x.get("content", "") and x.get("content", "").rstrip().endswith("TERMINATE")`.
The predicate is truthy exactly when the content is non-empty and its
rstrip ends with "TERMINATE". -/
def user_proxy_is_termination_msg (content : String) : Bool :=
  (content ≠ "") && pyEndsWith (pyRstrip content) "TERMINATE"

/-- The module-level function names defined in agent_functions.py (the
attributes a `agent_functions.<name>` lookup can resolve). -/
def agent_functions_defs : List String :=
  ["chat_friendly_df_summary", "summarize_df", "target_query_results_file",
   "download_protein_results", "select_target_from_query_results",
   "generate_activity_data", "calculate_lipinski_descriptors",
   "calculate_mordred_descriptors"]

/-- The attribute name the fourth `register_function` call in
cheminformatics_chat.py looks up on the `agent_functions` module. -/
def registered_lipinski_name : String := "calculate_lipinksi_descriptors"

/-! ## Concrete sample inputs used to witness the theorems below -/

/-- A sample loaded target-query CSV with two rows. -/
def sampleTargetDF : TargetDF :=
  ⟨["target_chembl_id", "organism"],
   [⟨some "CHEMBL25", [some "Homo sapiens"]⟩,
    ⟨some "CHEMBL26", [some "Mus musculus"]⟩]⟩

/-- A sample ChEMBL activity record with a SMILES string. -/
def sampleActivity : ActivityRecord := ⟨"CHEMBL25", some "IC50", some "CCO", []⟩

/-- A sample ChEMBL activity record whose `canonical_smiles` is NaN. -/
def sampleActivityNoSmiles : ActivityRecord := ⟨"CHEMBL25", some "IC50", none, []⟩

/-- A sample activity record with a different standard type. -/
def sampleActivityKi : ActivityRecord := ⟨"CHEMBL25", some "Ki", some "CCN", []⟩

/-- The output of `generate_activity_data` on
`[sampleActivity, sampleActivityNoSmiles]` with target `CHEMBL25` and
standard type `IC50`, written out explicitly. -/
def sampleGenOut : GenActivityOut :=
  ⟨[sampleActivity], 1, "activity_data_CHEMBL25_IC50.csv",
   some [("columns", .strs activityColumns), ("num_rows", .nat 1),
         ("csv_output", .str "activity_data_CHEMBL25_IC50.csv")]⟩

/-- A concrete instantiation of the abstract chemistry library: molecules
are their SMILES strings, every string parses, and each descriptor is the
string length. -/
def sampleLib : ChemLib String Nat :=
  ⟨fun s => some s, String.length, String.length, String.length,
   String.length, String.length⟩

/-- The output of `calculate_lipinski_descriptors` under `sampleLib` on
the file `activity_data_CHEMBL25_IC50.csv` with one SMILES cell `CCO`,
written out explicitly. -/
def sampleLipinskiOut : LipinskiOut Nat :=
  ⟨⟨lipinskiColumns, [[3, 3, 3, 3, 3]]⟩, "CHEMBL25_IC50_lipinski.csv",
   some [("columns", .strs lipinskiColumns), ("num_rows", .nat 1),
         ("csv_output", .str "CHEMBL25_IC50_lipinski.csv")]⟩

/-! ## Helper lemmas -/

/-- Rebuilding a string from its character list is the identity. -/
theorem string_mk_data (s : String) : String.mk s.data = s := by
  cases s
  rfl

/-- `listPre` accepts every list extended by an arbitrary tail. -/
theorem listPre_self_append (as bs : List Char) : listPre as (as ++ bs) = true := by
  induction as with
  | nil => rfl
  | cons a as ih => simp [listPre, ih]

/-- A list that starts with `needle` contains it. -/
theorem containsSub_of_listPre (hay needle : List Char)
    (h : listPre needle hay = true) : containsSub hay needle = true := by
  cases hay with
  | nil =>
    cases needle with
    | nil => rfl
    | cons a as => simp [listPre] at h
  | cons c t => simp [containsSub, h]

/-- `containsSub` is preserved by prepending a character. -/
theorem containsSub_cons (c : Char) (t needle : List Char)
    (h : containsSub t needle = true) : containsSub (c :: t) needle = true := by
  simp [containsSub, h]

/-! ## C7 -/

/-- C7: the orchestration script registers the misspelled attribute name
`calculate_lipinksi_descriptors`, which is not among the functions
defined by agent_functions.py (while the correctly spelled
`calculate_lipinski_descriptors` is), so the attribute lookup at
registration time cannot resolve. -/
theorem registered_lipinski_name_not_exported :
    registered_lipinski_name ∉ agent_functions_defs ∧
    "calculate_lipinski_descriptors" ∈ agent_functions_defs ∧
    registered_lipinski_name ≠ "calculate_lipinski_descriptors" := by
  decide

/-! ## C6 -/

/-- C6: for every query string and every search result (including an
empty one), `download_protein_results` writes the result table to the
conventionally named CSV and returns a summary whose keys are exactly
`columns` and `num_rows` (no output-filename key), with `num_rows` the
number of result rows. -/
theorem download_protein_results_summary {α : Type} (target_query_string : String)
    (target_result : DataFrame α) :
    (download_protein_results target_query_string target_result).written = target_result ∧
    (download_protein_results target_query_string target_result).fileName =
      "target_query_results_" ++ target_query_string ++ ".csv" ∧
    (download_protein_results target_query_string target_result).summary =
      some [("columns", .strs target_result.columns),
            ("num_rows", .nat target_result.rows.length)] := by
  exact ⟨rfl, rfl, rfl⟩

/-! ## C8 -/

/-- C8: `terminate_group_chat` prepends the `[GROUPCHAT_TERMINATE] `
marker, every string it returns satisfies the manager's termination
predicate (substring occurrence of `GROUPCHAT_TERMINATE`), and the
user-proxy termination predicate is truthy exactly when the
content, stripped of trailing whitespace, ends with `TERMINATE`. -/
theorem termination_predicates (m content : String) :
    terminate_group_chat m = "[GROUPCHAT_TERMINATE] " ++ m ∧
    manager_is_termination_msg (terminate_group_chat m) = true ∧
    (user_proxy_is_termination_msg content = true ↔
      pyEndsWith (pyRstrip content) "TERMINATE" = true) := by
  refine ⟨rfl, ?_, ?_⟩
  · have hdata : (terminate_group_chat m).data =
        '[' :: ("GROUPCHAT_TERMINATE".data ++ ("] ".data ++ m.data)) := by
      show ("[GROUPCHAT_TERMINATE] " ++ m).data = _
      rw [String.data_append]
      have hlit : "[GROUPCHAT_TERMINATE] ".data =
          '[' :: ("GROUPCHAT_TERMINATE".data ++ "] ".data) := by decide
      rw [hlit]
      simp
    unfold manager_is_termination_msg
    rw [hdata]
    exact containsSub_cons _ _ _
      (containsSub_of_listPre _ _ (listPre_self_append _ _))
  · constructor
    · intro h
      exact ((Bool.and_eq_true _ _).mp h).2
    · intro h
      unfold user_proxy_is_termination_msg
      rw [h, Bool.and_true]
      have hne : content ≠ "" := by
        intro hc
        rw [hc] at h
        exact absurd h (by decide)
      simp [hne]

/-! ## C1 -/

/-- C1: on a loaded target-query table, if some row's `target_chembl_id`
equals `chembl_id`, `select_target_from_query_results` returns a summary
of exactly the rows whose `target_chembl_id` equals `chembl_id`; if no
row matches, it raises ValueError. -/
theorem select_target_spec (chembl_id : String) (df : TargetDF) :
    ((∃ r ∈ df.trows, r.target_chembl_id = some chembl_id) →
      select_target_from_query_results chembl_id df =
        .ok ⟨df.trows.filter (fun r => r.target_chembl_id == some chembl_id),
             summarize_df (.dataframe (TargetDF.toDF ⟨df.columns,
               df.trows.filter (fun r => r.target_chembl_id == some chembl_id)⟩)) none⟩) ∧
    ((∀ r ∈ df.trows, r.target_chembl_id ≠ some chembl_id) →
      select_target_from_query_results chembl_id df =
        .error ("Error: " ++ chembl_id ++ " not found in the protein results dataframe")) := by
  constructor
  · intro h
    have ha : (df.trows.any (fun r => r.target_chembl_id == some chembl_id)) = true := by
      simp only [List.any_eq_true, beq_iff_eq]
      exact h
    simp [select_target_from_query_results, ha]
  · intro h
    have ha : (df.trows.any (fun r => r.target_chembl_id == some chembl_id)) = false := by
      simp only [List.any_eq_false, beq_iff_eq]
      exact h
    simp [select_target_from_query_results, ha]

/-- Witness for C1 on a concrete two-row table: one present identifier
and one absent identifier. -/
theorem select_target_spec_witness :
    select_target_from_query_results "CHEMBL25" sampleTargetDF =
      .ok ⟨[⟨some "CHEMBL25", [some "Homo sapiens"]⟩],
           some [("columns", .strs ["target_chembl_id", "organism"]),
                 ("num_rows", .nat 1)]⟩ ∧
    select_target_from_query_results "CHEMBL99" sampleTargetDF =
      .error "Error: CHEMBL99 not found in the protein results dataframe" := by
  constructor
  · exact ((select_target_spec "CHEMBL25" sampleTargetDF).1 (by decide)).trans rfl
  · exact ((select_target_spec "CHEMBL99" sampleTargetDF).2 (by decide)).trans rfl

/-! ## C2 -/

/-- C2: `generate_activity_data` raises the "no activity data" ValueError
exactly when the target filter over the external activity table is empty,
the distinct "wrong standard type" ValueError when the target filter is
non-empty but the standard-type filter is empty, and neither error
otherwise; the two error messages always differ. -/
theorem generate_activity_errors (activity_db : List ActivityRecord)
    (chembl_id standard_type : String) :
    (activity_db.filter (fun r => r.target_chembl_id == chembl_id) = [] →
      generate_activity_data activity_db chembl_id standard_type =
        .error (.noActivityData chembl_id)) ∧
    (activity_db.filter (fun r => r.target_chembl_id == chembl_id) ≠ [] →
      (activity_db.filter (fun r => r.target_chembl_id == chembl_id)).filter
        (fun r => r.standard_type == some standard_type) = [] →
      generate_activity_data activity_db chembl_id standard_type =
        .error (.wrongStandardType standard_type)) ∧
    (activity_db.filter (fun r => r.target_chembl_id == chembl_id) ≠ [] →
      (activity_db.filter (fun r => r.target_chembl_id == chembl_id)).filter
        (fun r => r.standard_type == some standard_type) ≠ [] →
      ∃ out, generate_activity_data activity_db chembl_id standard_type = .ok out) ∧
    (ActivityError.noActivityData chembl_id).message ≠
      (ActivityError.wrongStandardType standard_type).message := by
  refine ⟨?_, ?_, ?_, ?_⟩
  · intro h1
    simp [generate_activity_data, List.isEmpty_iff, h1]
  · intro h1 h2
    simp [generate_activity_data, List.isEmpty_iff, h1, h2]
  · intro h1 h2
    cases hx : generate_activity_data activity_db chembl_id standard_type with
    | ok out => exact ⟨out, rfl⟩
    | error e =>
      simp only [generate_activity_data] at hx
      rw [if_neg (by simp only [List.isEmpty_iff]; exact h1),
          if_neg (by simp only [List.isEmpty_iff]; exact h2)] at hx
      exact absurd hx (by simp)
  · intro h
    have e1 : ((ActivityError.noActivityData chembl_id).message).data.head? = some 'N' := by
      have hlit : ("No activity data found for " : String).data =
          'N' :: "o activity data found for ".data := by decide
      simp [ActivityError.message, String.data_append, hlit]
    have e2 : ((ActivityError.wrongStandardType standard_type).message).data.head? = some 'A' := by
      have hlit :
          ("Activity data was found for this target, but not with the standard type '" : String).data =
          'A' :: "ctivity data was found for this target, but not with the standard type '".data := by
        decide
      simp [ActivityError.message, String.data_append, hlit]
    rw [h, e2] at e1
    exact absurd e1 (by decide)

/-- Witness for C2: an empty table, a table with only a `Ki` record, and
a table with a matching `IC50` record. -/
theorem generate_activity_errors_witness :
    generate_activity_data [] "CHEMBL25" "IC50" =
      .error (.noActivityData "CHEMBL25") ∧
    generate_activity_data [sampleActivityKi] "CHEMBL25" "IC50" =
      .error (.wrongStandardType "IC50") ∧
    (∃ out, generate_activity_data [sampleActivity] "CHEMBL25" "IC50" = .ok out) := by
  refine ⟨(generate_activity_errors [] "CHEMBL25" "IC50").1 (by decide),
          (generate_activity_errors [sampleActivityKi] "CHEMBL25" "IC50").2.1
            (by decide) (by decide),
          (generate_activity_errors [sampleActivity] "CHEMBL25" "IC50").2.2.1
            (by decide) (by decide)⟩

/-! ## C3 -/

/-- C3: whenever `generate_activity_data` succeeds, the persisted table
keeps exactly the rows of the standard-type-filtered result whose
`canonical_smiles` is present (missing-structure rows are excluded,
present-structure rows retained), and the reported dropped count is the
input row count minus the output row count. -/
theorem generate_activity_drops (activity_db : List ActivityRecord)
    (chembl_id standard_type : String) (out : GenActivityOut)
    (h : generate_activity_data activity_db chembl_id standard_type = .ok out) :
    out.written = ((activity_db.filter (fun r => r.target_chembl_id == chembl_id)).filter
        (fun r => r.standard_type == some standard_type)).filter
        (fun r => r.canonical_smiles.isSome) ∧
    (∀ r ∈ out.written, r.canonical_smiles.isSome = true) ∧
    (∀ r ∈ (activity_db.filter (fun r => r.target_chembl_id == chembl_id)).filter
        (fun r => r.standard_type == some standard_type),
      r.canonical_smiles.isSome = true → r ∈ out.written) ∧
    out.droppedReported =
      ((activity_db.filter (fun r => r.target_chembl_id == chembl_id)).filter
        (fun r => r.standard_type == some standard_type)).length - out.written.length := by
  simp only [generate_activity_data] at h
  split at h
  · exact absurd h (by simp)
  · split at h
    · exact absurd h (by simp)
    · injection h with h'
      subst h'
      refine ⟨rfl, ?_, ?_, rfl⟩
      · intro r hr
        exact (List.mem_filter.mp hr).2
      · intro r hr hsome
        exact List.mem_filter.mpr ⟨hr, hsome⟩

/-- Witness for C3: a two-row result where one row lacks a SMILES
string; the persisted table keeps one row and one drop is reported. -/
theorem generate_activity_drops_witness :
    generate_activity_data [sampleActivity, sampleActivityNoSmiles] "CHEMBL25" "IC50" =
      .ok sampleGenOut ∧
    (∀ r ∈ sampleGenOut.written, r.canonical_smiles.isSome = true) ∧
    sampleGenOut.droppedReported = 2 - sampleGenOut.written.length := by
  have h : generate_activity_data [sampleActivity, sampleActivityNoSmiles] "CHEMBL25" "IC50" =
      .ok sampleGenOut := rfl
  have hc := generate_activity_drops [sampleActivity, sampleActivityNoSmiles]
    "CHEMBL25" "IC50" sampleGenOut h
  exact ⟨h, hc.2.1, by decide⟩

/-! ## Split lemmas (for C4 and C5) -/

/-- Splitting a list free of the separator yields that single field. -/
theorem splitChar_of_not_mem (sep : Char) (l : List Char) (h : sep ∉ l) :
    splitChar sep l = [l] := by
  induction l with
  | nil => rfl
  | cons c cs ih =>
    have hc : ¬ c = sep := fun e => h (e ▸ List.mem_cons_self c cs)
    have hcs : sep ∉ cs := fun m => h (List.mem_cons_of_mem _ m)
    simp [splitChar, hc, ih hcs]

/-- Splitting past a separator-free part peels off that part as the first
field. -/
theorem splitChar_append (sep : Char) (a b : List Char) (h : sep ∉ a) :
    splitChar sep (a ++ sep :: b) = a :: splitChar sep b := by
  induction a with
  | nil => simp [splitChar]
  | cons c as ih =>
    have hc : ¬ c = sep := fun e => h (e ▸ List.mem_cons_self c as)
    have has : sep ∉ as := fun m => h (List.mem_cons_of_mem _ m)
    simp [splitChar, hc, ih has]

/-! ## C4 -/

/-- C4: the file name written by each stage exactly matches the
documented convention: `target_query_results_{query}.csv` for the target
query, `activity_data_{chembl_id}_{standard_type}.csv` for activity
retrieval, `{target_id}_{activity_type}_lipinski.csv` (name parts cut out
of the input file name) for the Lipinski stage, and
`mordred_descriptors.csv` for the Mordred stage. -/
theorem stage_filenames :
    (∀ (α : Type) (target_query_string : String) (target_result : DataFrame α),
      (download_protein_results target_query_string target_result).fileName =
        "target_query_results_" ++ target_query_string ++ ".csv") ∧
    (∀ (activity_db : List ActivityRecord) (chembl_id standard_type : String)
        (out : GenActivityOut),
      generate_activity_data activity_db chembl_id standard_type = .ok out →
      out.fileName = "activity_data_" ++ chembl_id ++ "_" ++ standard_type ++ ".csv") ∧
    (∀ (Mol Val : Type) (lib : ChemLib Mol Val) (activity_file : String)
        (smiles_series : List Cell) (out : LipinskiOut Val),
      calculate_lipinski_descriptors lib activity_file smiles_series = some out →
      ∃ target_id activity_type,
        lipinski_parts activity_file = some (target_id, activity_type) ∧
        out.fileName = target_id ++ "_" ++ activity_type ++ "_lipinski.csv") ∧
    (∀ (Mol Val : Type) (molFromSmiles : String → Option Mol)
        (calcPandas : List (Option Mol) → DataFrame Val) (smiles : List String),
      (calculate_mordred_descriptors molFromSmiles calcPandas smiles).fileName =
        "mordred_descriptors.csv") := by
  refine ⟨fun α q df => rfl, ?_, ?_, fun Mol Val f c s => rfl⟩
  · intro activity_db chembl_id standard_type out h
    simp only [generate_activity_data] at h
    split at h
    · exact absurd h (by simp)
    · split at h
      · exact absurd h (by simp)
      · injection h with h'
        subst h'
        rfl
  · intro Mol Val lib activity_file smiles_series out h
    simp only [calculate_lipinski_descriptors] at h
    cases hr : lipinskiRows lib smiles_series with
    | none =>
      rw [hr] at h
      exact absurd h (by simp)
    | some rows =>
      rw [hr] at h
      cases hp : lipinski_parts activity_file with
      | none =>
        rw [hp] at h
        exact absurd h (by simp)
      | some p =>
        obtain ⟨target_id, activity_type⟩ := p
        rw [hp] at h
        simp at h
        exact ⟨target_id, activity_type, rfl, by rw [← h]⟩

/-- Witness for C4: each stage applied to a concrete input. -/
theorem stage_filenames_witness :
    (download_protein_results "egfr" (DataFrame.mk ["pref_name"] ([] : List (List Cell)))).fileName =
      "target_query_results_egfr.csv" ∧
    sampleGenOut.fileName = "activity_data_CHEMBL25_IC50.csv" ∧
    (∃ target_id activity_type,
      lipinski_parts "activity_data_CHEMBL25_IC50.csv" = some (target_id, activity_type) ∧
      sampleLipinskiOut.fileName = target_id ++ "_" ++ activity_type ++ "_lipinski.csv") ∧
    (calculate_mordred_descriptors (fun s => some s)
      (fun _ => DataFrame.mk [] ([] : List (List Nat))) ["CCO"]).fileName =
      "mordred_descriptors.csv" := by
  refine ⟨(stage_filenames.1 Cell "egfr" _).trans rfl,
          (stage_filenames.2.1 [sampleActivity, sampleActivityNoSmiles] "CHEMBL25" "IC50"
            sampleGenOut rfl).trans rfl,
          stage_filenames.2.2.1 String Nat sampleLib "activity_data_CHEMBL25_IC50.csv"
            [some "CCO"] sampleLipinskiOut rfl,
          stage_filenames.2.2.2 String Nat _ _ _⟩

/-! ## C5 -/

/-- C5: the positional filename parsing in
`calculate_lipinski_descriptors` inverts the naming convention of
`generate_activity_data`: for identifiers without underscores (and a
standard type without a dot), parsing
`activity_data_{chembl_id}_{standard_type}.csv` recovers exactly
`chembl_id` and `standard_type`. -/
theorem lipinski_roundtrip (chembl_id standard_type : String)
    (h1 : '_' ∉ chembl_id.data) (h2 : '_' ∉ standard_type.data)
    (h3 : '.' ∉ standard_type.data) :
    lipinski_parts ("activity_data_" ++ chembl_id ++ "_" ++ standard_type ++ ".csv") =
      some (chembl_id, standard_type) := by
  have hdata : ("activity_data_" ++ chembl_id ++ "_" ++ standard_type ++ ".csv").data =
      "activity".data ++ '_' :: ("data".data ++ '_' :: (chembl_id.data ++ '_' ::
        (standard_type.data ++ ".csv".data))) := by
    simp [String.data_append]
  have hsplit : splitChar '_'
      ("activity_data_" ++ chembl_id ++ "_" ++ standard_type ++ ".csv").data =
      ["activity".data, "data".data, chembl_id.data,
       standard_type.data ++ ".csv".data] := by
    rw [hdata]
    rw [splitChar_append '_' _ _ (by decide)]
    rw [splitChar_append '_' _ _ (by decide)]
    rw [splitChar_append '_' _ _ h1]
    rw [splitChar_of_not_mem '_' _ ?_]
    intro hm
    rcases List.mem_append.mp hm with hm | hm
    · exact h2 hm
    · exact absurd hm (by decide)
  have hps : pySplit '_' ("activity_data_" ++ chembl_id ++ "_" ++ standard_type ++ ".csv") =
      ["activity", "data", chembl_id, String.mk (standard_type.data ++ ".csv".data)] := by
    unfold pySplit
    rw [hsplit]
    simp [string_mk_data]
  have hps2 : pySplit '.' (String.mk (standard_type.data ++ ".csv".data)) =
      [standard_type, "csv"] := by
    have hd : (String.mk (standard_type.data ++ ".csv".data)).data =
        standard_type.data ++ '.' :: "csv".data := by
      show standard_type.data ++ ".csv".data = standard_type.data ++ '.' :: "csv".data
      simp
    unfold pySplit
    rw [hd, splitChar_append '.' _ _ h3, splitChar_of_not_mem '.' _ (by decide)]
    simp [string_mk_data]
  unfold lipinski_parts
  rw [hps]
  have e2 : (["activity", "data", chembl_id,
      String.mk (standard_type.data ++ ".csv".data)].get? 2) = some chembl_id := rfl
  have e3 : (["activity", "data", chembl_id,
      String.mk (standard_type.data ++ ".csv".data)].get? 3) =
      some (String.mk (standard_type.data ++ ".csv".data)) := rfl
  rw [e2, e3]
  simp [hps2]

/-- Witness for C5: the round trip at `CHEMBL25` / `IC50`. -/
theorem lipinski_roundtrip_witness :
    lipinski_parts ("activity_data_" ++ "CHEMBL25" ++ "_" ++ "IC50" ++ ".csv") =
      some ("CHEMBL25", "IC50") := by
  exact lipinski_roundtrip "CHEMBL25" "IC50" (by decide) (by decide) (by decide)

/-! ## C9 -/

/-- When every SMILES cell is present and parses, the descriptor loop
succeeds, yielding one row per cell, each row computed from that cell's
string alone. -/
theorem lipinskiRows_all_parse {Mol Val : Type} (lib : ChemLib Mol Val)
    (smiles_series : List Cell)
    (h : ∀ c ∈ smiles_series, ∃ s m, c = some s ∧ lib.molFromSmiles s = some m) :
    ∃ rows, lipinskiRows lib smiles_series = some rows ∧
      rows.length = smiles_series.length ∧
      ∀ i (hi : i < smiles_series.length), ∃ s m,
        smiles_series.get ⟨i, hi⟩ = some s ∧ lib.molFromSmiles s = some m ∧
        rows.get? i = some (lipinskiRow lib m) := by
  induction smiles_series with
  | nil => exact ⟨[], rfl, rfl, fun i hi => absurd hi (by simp)⟩
  | cons c rest ih =>
    obtain ⟨s, m, hc, hm⟩ := h c (List.mem_cons_self c rest)
    obtain ⟨rows, hrows, hlen, hget⟩ :=
      ih (fun c' hc' => h c' (List.mem_cons_of_mem _ hc'))
    refine ⟨lipinskiRow lib m :: rows, ?_, by simp [hlen], ?_⟩
    · simp [lipinskiRows, hc, hm, hrows]
    · intro i hi
      cases i with
      | zero => exact ⟨s, m, by simp [hc], hm, rfl⟩
      | succ n =>
        have hn : n < rest.length := by simpa using hi
        obtain ⟨s', m', ha, hb, hcc⟩ := hget n hn
        exact ⟨s', m', by simpa using ha, hb, by simpa using hcc⟩

/-- C9: on an activity file of the conventional shape whose structure
strings all parse, `calculate_lipinski_descriptors` deterministically
produces a table with exactly the five descriptor columns and exactly one
row per input compound row, each row a function only of that row's
structure string. -/
theorem lipinski_descriptor_table {Mol Val : Type} (lib : ChemLib Mol Val)
    (activity_file : String) (smiles_series : List Cell)
    (pparts : String × String)
    (hfile : lipinski_parts activity_file = some pparts)
    (h : ∀ c ∈ smiles_series, ∃ s m, c = some s ∧ lib.molFromSmiles s = some m) :
    ∃ out, calculate_lipinski_descriptors lib activity_file smiles_series = some out ∧
      out.written.columns = lipinskiColumns ∧
      out.written.rows.length = smiles_series.length ∧
      ∀ i (hi : i < smiles_series.length), ∃ s m,
        smiles_series.get ⟨i, hi⟩ = some s ∧ lib.molFromSmiles s = some m ∧
        out.written.rows.get? i = some (lipinskiRow lib m) := by
  obtain ⟨target_id, activity_type⟩ := pparts
  obtain ⟨rows, hrows, hlen, hget⟩ := lipinskiRows_all_parse lib smiles_series h
  refine ⟨⟨⟨lipinskiColumns, rows⟩,
      target_id ++ "_" ++ activity_type ++ "_lipinski.csv",
      summarize_df (.dataframe ⟨lipinskiColumns, rows⟩)
        (some (target_id ++ "_" ++ activity_type ++ "_lipinski.csv"))⟩,
    ?_, rfl, hlen, hget⟩
  simp [calculate_lipinski_descriptors, hrows, hfile]

/-- Witness for C9: `sampleLib` on one parsing SMILES cell under the
conventional file name. -/
theorem lipinski_descriptor_table_witness :
    ∃ out, calculate_lipinski_descriptors sampleLib "activity_data_CHEMBL25_IC50.csv"
        [some "CCO"] = some out ∧
      out.written.columns = lipinskiColumns ∧
      out.written.rows.length = 1 := by
  obtain ⟨out, h1, h2, h3, _⟩ := lipinski_descriptor_table sampleLib
    "activity_data_CHEMBL25_IC50.csv" [some "CCO"] ("CHEMBL25", "IC50") rfl
    (by intro c hc; refine ⟨"CCO", "CCO", ?_, rfl⟩; simpa using hc)
  exact ⟨out, h1, h2, h3⟩

/-! ## C10 -/

/-- C10 counterexample: a DataFrame summarized with the supplied file
name `""` (a supplied file name that is falsy in Python) yields no
`csv_output` key, contradicting "csv_output exactly when a file name is
supplied". -/
theorem summarize_df_empty_filename_counterexample :
    summarize_df (PandasObj.dataframe (DataFrame.mk ["a"] ([] : List (List Nat))))
        (some "") =
      some [("columns", SummaryVal.strs ["a"]), ("num_rows", SummaryVal.nat 0)] := by
  rfl

/-- C10 (amended): `summarize_df` is total only on DataFrame and Series
arguments: a DataFrame yields `columns` and `num_rows` plus `csv_output`
exactly when the supplied file name is non-empty (Python truthiness), a
Series likewise yields `index` and `values` (plus `csv_output` under the
same condition), and any other argument fails with UnboundLocalError
because `result_dict` is never assigned. -/
theorem summarize_df_characterization {α : Type} (obj : PandasObj α)
    (file_name : Option String) :
    (obj = PandasObj.other → summarize_df obj file_name = none) ∧
    (∀ df, obj = PandasObj.dataframe df →
      (pyTruthy file_name = false →
        summarize_df obj file_name =
          some [("columns", .strs df.columns), ("num_rows", .nat df.rows.length)]) ∧
      (∀ fn, file_name = some fn → fn ≠ "" →
        summarize_df obj file_name =
          some [("columns", .strs df.columns), ("num_rows", .nat df.rows.length),
                ("csv_output", .str fn)])) ∧
    (∀ index values, obj = PandasObj.series index values →
      (pyTruthy file_name = false →
        summarize_df obj file_name =
          some [("index", .strs index), ("values", .vals values)]) ∧
      (∀ fn, file_name = some fn → fn ≠ "" →
        summarize_df obj file_name =
          some [("index", .strs index), ("values", .vals values),
                ("csv_output", .str fn)])) := by
  refine ⟨?_, ?_, ?_⟩
  · intro h
    subst h
    cases file_name <;> rfl
  · intro df h
    subst h
    constructor
    · intro ht
      cases file_name with
      | none => rfl
      | some fn =>
        have he : fn = "" := by simpa [pyTruthy] using ht
        subst he
        rfl
    · intro fn hfn hne
      subst hfn
      simp [summarize_df, hne]
  · intro index values h
    subst h
    constructor
    · intro ht
      cases file_name with
      | none => rfl
      | some fn =>
        have he : fn = "" := by simpa [pyTruthy] using ht
        subst he
        rfl
    · intro fn hfn hne
      subst hfn
      simp [summarize_df, hne]

/-- Witness for C10: the three argument shapes at concrete inputs. -/
theorem summarize_df_characterization_witness :
    summarize_df (PandasObj.other : PandasObj Nat) (some "f.csv") = none ∧
    summarize_df (PandasObj.dataframe (DataFrame.mk ["a"] ([[1]] : List (List Nat))))
        (some "out.csv") =
      some [("columns", .strs ["a"]), ("num_rows", .nat 1),
            ("csv_output", .str "out.csv")] ∧
    summarize_df (PandasObj.series ["i"] ([2] : List Nat)) none =
      some [("index", .strs ["i"]), ("values", .vals [2])] := by
  exact ⟨(summarize_df_characterization (PandasObj.other : PandasObj Nat) (some "f.csv")).1 rfl,
         ((summarize_df_characterization _ _).2.1 _ rfl).2 "out.csv" rfl (by decide),
         ((summarize_df_characterization _ _).2.2 ["i"] [2] rfl).1 rfl⟩

end Chemi
